import Mathlib

/-!
Verification of the terraform-ui document renderer and its session state
machine, shallowly embedded from the two source variants
(src/src/components/Terraform.tsx and src/unnamed/part_000).

JavaScript plain objects used as field-value maps are modelled as
association lists in insertion order, which matches the iteration order
of Object.entries for the non-numeric string keys used here.  Braces that
occur literally in rendered text are written with the escapes \x7b and
\x7d.
-/

namespace TerraformUI

/-- Catalog entry: the interface Resource of Terraform.tsx
(id, name, fields, image).  The part_000 variant's catalog omits the
image attribute but is otherwise identical; the renderers never read it. -/
structure Resource where
  id : String
  name : String
  fields : List String
  image : String
deriving Repr, DecidableEq

/-- A placed resource: the spread copy of a catalog Resource plus the
mutable values object, modelled as an insertion-ordered association list. -/
structure PlacedResource where
  id : String
  name : String
  fields : List String
  image : String
  values : List (String × String)
deriving Repr, DecidableEq

/-- JavaScript property assignment obj[key] = value on a plain object:
an existing key keeps its position and gets the new value, a new key is
appended at the end. -/
def setProp : List (String × String) → String → String → List (String × String)
  | [], k, v => [(k, v)]
  | (k0, v0) :: rest, k, v =>
    if k0 = k then (k, v) :: rest else (k0, v0) :: setProp rest k v

/-- JavaScript String.prototype.toLowerCase, per character (all observed
categories are ASCII, where the two coincide). -/
def toLowercase (s : String) : String := ⟨s.data.map Char.toLower⟩

/-- The static resources record of Terraform.tsx, keyed by category. -/
def resources : List (String × List Resource) :=
  [("AWS",
    [⟨"aws_ec2", "AWS EC2", ["ami", "instance_type", "tags"], "/aws-ec2.png"⟩,
     ⟨"aws_s3", "AWS S3", ["bucket_name", "region"], "/aws-s3.png"⟩,
     ⟨"aws_rds", "AWS RDS", ["db_name", "instance_class"], "/aws-rds.png"⟩]),
   ("OpenStack",
    [⟨"openstack_compute", "OpenStack Compute", ["flavor", "image"], "/openstack-compute.png"⟩,
     ⟨"openstack_network", "OpenStack Network", ["cidr", "subnet"], "/openstack-network.png"⟩]),
   ("Docker",
    [⟨"docker_container", "Docker Container", ["image", "ports"], "/docker-container.png"⟩,
     ⟨"docker_network", "Docker Network", ["driver"], "/docker-network.png"⟩])]

/-- resources[selectedCategory] followed by .find((r) => r.id === activeId). -/
def findResource (selectedCategory activeId : String) : Option Resource :=
  (((resources.find? (fun p => p.1 = selectedCategory)).map Prod.snd).getD []).find?
    (fun r => r.id = activeId)

/-- The spread { ...resource, values: {} } performed on drop. -/
def placed (r : Resource) : PlacedResource :=
  ⟨r.id, r.name, r.fields, r.image, []⟩

/-- generateTerraformCode of Terraform.tsx: the template-literal preamble
(ending in a provider instantiation block), then one += per dropped
resource of a header line, one += per values entry, and a closing braces
line, exactly as the nested forEach loops accumulate. -/
def generateTerraformCode (selectedCategory : String)
    (droppedResources : List PlacedResource) : String :=
  let code := "terraform \x7b\n  required_providers \x7b\n    "
    ++ toLowercase selectedCategory
    ++ " = \x7b\n      source  = \"hashicorp/"
    ++ toLowercase selectedCategory
    ++ "\"\n      version = \"~> 4.16\"\n    \x7d\n  \x7d\n  required_version = \">= 1.2.0\"\n\x7d\n\nprovider \""
    ++ toLowercase selectedCategory
    ++ "\" \x7b\x7d\n\n"
  droppedResources.foldl
    (fun code res =>
      (res.values.foldl
        (fun c kv => c ++ "  " ++ kv.1 ++ " = \"" ++ kv.2 ++ "\"\n")
        (code ++ "resource \"" ++ res.id ++ "\" \"" ++ res.id ++ "_resource\" \x7b\n"))
      ++ "\x7d\n\n")
    code

/-- updateTerraformCode of part_000: identical accumulation, but its
template-literal preamble stops after required_version and emits no
provider instantiation block. -/
def updateTerraformCode (selectedCategory : String)
    (droppedResources : List PlacedResource) : String :=
  let code := "terraform \x7b\n  required_providers \x7b\n    "
    ++ toLowercase selectedCategory
    ++ " = \x7b\n      source  = \"hashicorp/"
    ++ toLowercase selectedCategory
    ++ "\"\n      version = \"~> 4.16\"\n    \x7d\n  \x7d\n  required_version = \">= 1.2.0\"\n\x7d\n\n"
  droppedResources.foldl
    (fun code res =>
      (res.values.foldl
        (fun c kv => c ++ "  " ++ kv.1 ++ " = \"" ++ kv.2 ++ "\"\n")
        (code ++ "resource \"" ++ res.id ++ "\" \"" ++ res.id ++ "_resource\" \x7b\n"))
      ++ "\x7d\n\n")
    code

/-- Concatenation of a list of strings, in order. -/
def concatAll : List String → String
  | [] => ""
  | s :: rest => s ++ concatAll rest

/-- One rendered line of a resource block, for a values entry. -/
def valueLine (kv : String × String) : String :=
  "  " ++ kv.1 ++ " = \"" ++ kv.2 ++ "\"\n"

/-- The rendered block of one placed resource. -/
def resourceBlock (res : PlacedResource) : String :=
  "resource \"" ++ res.id ++ "\" \"" ++ res.id ++ "_resource\" \x7b\n"
  ++ concatAll (res.values.map valueLine)
  ++ "\x7d\n\n"

/-- The preamble emitted by generateTerraformCode (Terraform.tsx),
provider instantiation block included. -/
def genPreamble (selectedCategory : String) : String :=
  "terraform \x7b\n  required_providers \x7b\n    "
  ++ toLowercase selectedCategory
  ++ " = \x7b\n      source  = \"hashicorp/"
  ++ toLowercase selectedCategory
  ++ "\"\n      version = \"~> 4.16\"\n    \x7d\n  \x7d\n  required_version = \">= 1.2.0\"\n\x7d\n\nprovider \""
  ++ toLowercase selectedCategory
  ++ "\" \x7b\x7d\n\n"

/-- The preamble emitted by updateTerraformCode (part_000),
with no provider instantiation block. -/
def updPreamble (selectedCategory : String) : String :=
  "terraform \x7b\n  required_providers \x7b\n    "
  ++ toLowercase selectedCategory
  ++ " = \x7b\n      source  = \"hashicorp/"
  ++ toLowercase selectedCategory
  ++ "\"\n      version = \"~> 4.16\"\n    \x7d\n  \x7d\n  required_version = \">= 1.2.0\"\n\x7d\n\n"

/-- The provider instantiation block present only in Terraform.tsx. -/
def providerBlock (selectedCategory : String) : String :=
  "provider \"" ++ toLowercase selectedCategory ++ "\" \x7b\x7d\n\n"

/-- updatedResources[index].values[key] = value on a copy of the array:
the resource at index gets the property assignment, all others are kept. -/
def updateValues : List PlacedResource → Nat → String → String → List PlacedResource
  | [], _, _, _ => []
  | r :: rest, 0, k, v => ⟨r.id, r.name, r.fields, r.image, setProp r.values k v⟩ :: rest
  | r :: rest, n + 1, k, v => r :: updateValues rest n k v

/-- The component state visible to the renderer: selectedCategory,
droppedResources and the terraformCode string shown in the editor. -/
structure ComponentState where
  selectedCategory : String
  droppedResources : List PlacedResource
  terraformCode : String
deriving Repr, DecidableEq

/-- Terraform.tsx session machine.  Every mutation of droppedResources or
selectedCategory re-runs generateTerraformCode via the useEffect on
[droppedResources, selectedCategory]. -/
def rerender (s : ComponentState) : ComponentState :=
  ⟨s.selectedCategory, s.droppedResources,
   generateTerraformCode s.selectedCategory s.droppedResources⟩

/-- handleDragEnd of Terraform.tsx: look the active id up in the current
category's catalog entry; on a hit append the spread copy with empty
values and re-render, otherwise leave the state untouched. -/
def handleDragEnd (s : ComponentState) (activeId : String) : ComponentState :=
  match findResource s.selectedCategory activeId with
  | some r => rerender ⟨s.selectedCategory, s.droppedResources ++ [placed r], s.terraformCode⟩
  | none => s

/-- updateResourceValue of Terraform.tsx, followed by the re-render that
its setDroppedResources triggers. -/
def updateResourceValue (s : ComponentState) (index : Nat) (key value : String) :
    ComponentState :=
  rerender ⟨s.selectedCategory, updateValues s.droppedResources index key value,
            s.terraformCode⟩

/-- Category selection in Terraform.tsx: setSelectedCategory fires the
clearing useEffect (setDroppedResources([])) and then the re-render
useEffect, so the next code is a render of the empty list. -/
def setSelectedCategory (s : ComponentState) (c : String) : ComponentState :=
  rerender ⟨c, [], s.terraformCode⟩

/-- Initial Terraform.tsx state after mount: category AWS, no dropped
resources, and the initial effect has rendered once. -/
def initialState : ComponentState :=
  ⟨"AWS", [], generateTerraformCode "AWS" []⟩

namespace Part000

/-- handleDragEnd of part_000: on a hit it appends the copy and calls
updateTerraformCode itself on the appended list. -/
def handleDragEnd (s : ComponentState) (activeId : String) : ComponentState :=
  match findResource s.selectedCategory activeId with
  | some r =>
    ⟨s.selectedCategory, s.droppedResources ++ [placed r],
     updateTerraformCode s.selectedCategory (s.droppedResources ++ [placed r])⟩
  | none => s

/-- updateResourceValue of part_000: mutates the indexed resource and
calls updateTerraformCode on the updated list. -/
def updateResourceValue (s : ComponentState) (index : Nat) (key value : String) :
    ComponentState :=
  ⟨s.selectedCategory, updateValues s.droppedResources index key value,
   updateTerraformCode s.selectedCategory (updateValues s.droppedResources index key value)⟩

/-- Category selection in part_000: only selectedCategory changes; the
variant has no clearing effect and no render effect, so droppedResources
and terraformCode keep their values. -/
def setSelectedCategory (s : ComponentState) (c : String) : ComponentState :=
  ⟨c, s.droppedResources, s.terraformCode⟩

/-- Initial part_000 state after mount: no effect renders, so the code
string starts empty. -/
def initialState : ComponentState := ⟨"AWS", [], ""⟩

end Part000

/-- Substring membership of a pattern, on character lists. -/
def isPrefixB : List Char → List Char → Bool
  | [], _ => true
  | _ :: _, [] => false
  | a :: as, b :: bs => a = b && isPrefixB as bs

/-- Whether pat occurs as a contiguous substring of l. -/
def containsB (pat : List Char) : List Char → Bool
  | [] => isPrefixB pat []
  | b :: bs => isPrefixB pat (b :: bs) || containsB pat bs

/-- The values fold of either renderer appends one valueLine per entry,
in list (insertion) order. -/
theorem foldValues (l : List (String × String)) (init : String) :
    l.foldl (fun c kv => c ++ "  " ++ kv.1 ++ " = \"" ++ kv.2 ++ "\"\n") init
    = init ++ concatAll (l.map valueLine) := by
  induction l generalizing init with
  | nil => simp [concatAll, String.append_empty]
  | cons kv t ih =>
    simp only [List.foldl_cons]
    rw [ih]
    simp only [List.map_cons, concatAll, valueLine, String.append_assoc]

/-- The resources fold of either renderer appends one resourceBlock per
placed resource, in list order. -/
theorem foldResources (rs : List PlacedResource) (init : String) :
    rs.foldl
      (fun code res =>
        (res.values.foldl
          (fun c kv => c ++ "  " ++ kv.1 ++ " = \"" ++ kv.2 ++ "\"\n")
          (code ++ "resource \"" ++ res.id ++ "\" \"" ++ res.id ++ "_resource\" \x7b\n"))
        ++ "\x7d\n\n") init
    = init ++ concatAll (rs.map resourceBlock) := by
  induction rs generalizing init with
  | nil => simp [concatAll, String.append_empty]
  | cons r t ih =>
    simp only [List.foldl_cons]
    rw [ih, foldValues]
    simp only [List.map_cons, concatAll, resourceBlock, String.append_assoc]

/-- generateTerraformCode is its preamble followed by the blocks. -/
theorem generate_eq (c : String) (rs : List PlacedResource) :
    generateTerraformCode c rs = genPreamble c ++ concatAll (rs.map resourceBlock) := by
  simp only [generateTerraformCode]
  rw [foldResources]
  rfl

/-- updateTerraformCode is its preamble followed by the blocks. -/
theorem update_eq (c : String) (rs : List PlacedResource) :
    updateTerraformCode c rs = updPreamble c ++ concatAll (rs.map resourceBlock) := by
  simp only [updateTerraformCode]
  rw [foldResources]
  rfl

/-- The closing text of the shared preamble splits off the opening of the
provider instantiation block. -/
theorem preambleTailEq :
    ("\"\n      version = \"~> 4.16\"\n    \x7d\n  \x7d\n  required_version = \">= 1.2.0\"\n\x7d\n\nprovider \"" : String)
    = "\"\n      version = \"~> 4.16\"\n    \x7d\n  \x7d\n  required_version = \">= 1.2.0\"\n\x7d\n\n"
      ++ "provider \"" := rfl

/-- The Terraform.tsx preamble is the part_000 preamble followed by the
provider instantiation block. -/
theorem preamble_split (c : String) :
    genPreamble c = updPreamble c ++ providerBlock c := by
  simp only [genPreamble, updPreamble, providerBlock, preambleTailEq,
    String.append_assoc]

/-- Indexing into the list of rendered blocks is rendering the indexed
placed resource. -/
theorem blocks_getElem (rs : List PlacedResource) (i : Nat) :
    (rs.map resourceBlock)[i]? = (rs[i]?).map resourceBlock := by
  simp [List.getElem?_map]

/-- updateValues preserves the length of the resource list. -/
theorem updateValues_length (rs : List PlacedResource) (i : Nat) (k v : String) :
    (updateValues rs i k v).length = rs.length := by
  induction rs generalizing i with
  | nil => rfl
  | cons r t ih =>
    cases i with
    | zero => rfl
    | succ n => simp [updateValues, ih]

/-- updateValues leaves every other position of the list untouched. -/
theorem updateValues_ne (rs : List PlacedResource) (i : Nat) (k v : String)
    (j : Nat) (h : j ≠ i) :
    (updateValues rs i k v)[j]? = rs[j]? := by
  induction rs generalizing i j with
  | nil => rfl
  | cons r t ih =>
    cases i with
    | zero =>
      cases j with
      | zero => exact absurd rfl h
      | succ m => simp [updateValues]
    | succ n =>
      cases j with
      | zero => simp [updateValues]
      | succ m =>
        simp only [updateValues, List.getElem?_cons_succ]
        exact ih n m (fun hh => h (by rw [hh]))

/-- updateValues performs exactly the property assignment on the values
of the indexed resource and copies its other attributes. -/
theorem updateValues_eq (rs : List PlacedResource) (i : Nat) (k v : String) :
    (updateValues rs i k v)[i]?
    = (rs[i]?).map (fun r => ⟨r.id, r.name, r.fields, r.image, setProp r.values k v⟩) := by
  induction rs generalizing i with
  | nil => rfl
  | cons r t ih =>
    cases i with
    | zero => simp [updateValues]
    | succ n => simpa [updateValues] using ih n

/-- A property assignment leaves the lookup of every other key unchanged. -/
theorem setProp_find_ne (vals : List (String × String)) (k v k2 : String)
    (h : k2 ≠ k) :
    (setProp vals k v).find? (fun kv => kv.1 = k2)
    = vals.find? (fun kv => kv.1 = k2) := by
  induction vals with
  | nil => simp [setProp, List.find?, h, Ne.symm h]
  | cons kv0 t ih =>
    by_cases h0 : kv0.1 = k
    · simp [setProp, h0, List.find?, Ne.symm h]
    · by_cases h2 : kv0.1 = k2
      · simp only [setProp, if_neg h0, List.find?, h2, decide_True]
        rw [if_neg h]
        simp [List.find?, h2.symm]
      · simp [setProp, h0, List.find?, h2, ih]

/-- A property assignment keeps the key order: assigning an existing key
changes no key, assigning a new key appends it at the end.  Iterating the
object therefore visits fields in the order they were first assigned. -/
theorem setProp_keys (vals : List (String × String)) (k v : String) :
    (setProp vals k v).map Prod.fst
    = if k ∈ vals.map Prod.fst then vals.map Prod.fst
      else vals.map Prod.fst ++ [k] := by
  induction vals with
  | nil => simp [setProp]
  | cons kv0 t ih =>
    by_cases h0 : kv0.1 = k
    · simp [setProp, h0]
    · simp only [setProp, if_neg h0, List.map_cons, ih]
      by_cases hm : k ∈ t.map Prod.fst
      · simp [hm, List.mem_cons, Ne.symm h0]
      · simp [hm, List.mem_cons, Ne.symm h0]

end TerraformUI

namespace TerraformUI

set_option maxRecDepth 200000 in
/-- Claim C1: with category AWS and one placed aws_s3 resource whose values
are entered bucket_name then region, the Terraform.tsx render is the fixed
preamble naming provider aws followed by exactly the expected resource
block. -/
theorem claimC1_concrete_aws_s3_render :
    (updateResourceValue (updateResourceValue (handleDragEnd initialState "aws_s3")
       0 "bucket_name" "my-bucket") 0 "region" "us-east-1").terraformCode
    = genPreamble "AWS"
      ++ "resource \"aws_s3\" \"aws_s3_resource\" \x7b\n  bucket_name = \"my-bucket\"\n  region = \"us-east-1\"\n\x7d\n\n"
    ∧ genPreamble "AWS"
      = "terraform \x7b\n  required_providers \x7b\n    aws = \x7b\n      source  = \"hashicorp/aws\"\n      version = \"~> 4.16\"\n    \x7d\n  \x7d\n  required_version = \">= 1.2.0\"\n\x7d\n\nprovider \"aws\" \x7b\x7d\n\n" :=
  ⟨by decide, by decide⟩

/-- Claim C2: for every category and every resource sequence of length N,
both renderers emit their preamble followed by exactly the N resource
blocks in input order, the i-th block rendering the i-th placed resource
and each block headed by its resource-and-name line. -/
theorem claimC2_block_count_and_order (c : String) (rs : List PlacedResource) :
    generateTerraformCode c rs = genPreamble c ++ concatAll (rs.map resourceBlock)
    ∧ updateTerraformCode c rs = updPreamble c ++ concatAll (rs.map resourceBlock)
    ∧ (rs.map resourceBlock).length = rs.length
    ∧ (∀ i : Nat, (rs.map resourceBlock)[i]? = (rs[i]?).map resourceBlock)
    ∧ (∀ res : PlacedResource,
        resourceBlock res
        = ("resource \"" ++ res.id ++ "\" \"" ++ res.id ++ "_resource\" \x7b\n")
          ++ (concatAll (res.values.map valueLine) ++ "\x7d\n\n")) := by
  refine ⟨generate_eq c rs, update_eq c rs, by simp, fun i => blocks_getElem rs i,
    fun res => ?_⟩
  simp [resourceBlock, String.append_assoc]

set_option maxRecDepth 200000 in
/-- Claim C3 counterexample: at category AWS with the empty resource
sequence, the part_000 render contains no provider instantiation text,
while the Terraform.tsx render does, so the claimed document shape with a
provider-instantiation block does not hold of both renderers. -/
theorem claimC3_counterexample :
    containsB ("provider \"aws\"".toList) ((updateTerraformCode "AWS" []).toList) = false
    ∧ containsB ("provider \"aws\"".toList) ((generateTerraformCode "AWS" []).toList) = true :=
  ⟨by decide, by decide⟩

/-- Claim C3 amended: for every category and the empty resource sequence,
generateTerraformCode renders exactly the required-providers preamble
keyed by the lowercased category with the hardcoded hashicorp source,
version and required_version constraints, followed by the provider
instantiation block, and updateTerraformCode renders the same preamble
without that block; neither render has resource blocks. -/
theorem claimC3_amended_empty_render (c : String) :
    generateTerraformCode c [] = updPreamble c ++ providerBlock c
    ∧ updateTerraformCode c [] = updPreamble c
    ∧ updPreamble c
      = "terraform \x7b\n  required_providers \x7b\n    " ++ (toLowercase c
        ++ (" = \x7b\n      source  = \"hashicorp/" ++ (toLowercase c
        ++ "\"\n      version = \"~> 4.16\"\n    \x7d\n  \x7d\n  required_version = \">= 1.2.0\"\n\x7d\n\n")))
    ∧ providerBlock c = "provider \"" ++ (toLowercase c ++ "\" \x7b\x7d\n\n") := by
  refine ⟨?_, rfl, ?_, ?_⟩
  · rw [← preamble_split]; rfl
  · simp [updPreamble, String.append_assoc]
  · simp [providerBlock, String.append_assoc]

set_option maxRecDepth 200000 in
/-- Claim C4: the lines of a rendered resource block follow the insertion
order of the values object, which is the order fields were first assigned,
and in the concrete run that edits region before bucket_name the block
lists region first even though the catalog declares bucket_name first. -/
theorem claimC4_field_edit_order :
    (∀ res : PlacedResource,
      resourceBlock res
      = ("resource \"" ++ res.id ++ "\" \"" ++ res.id ++ "_resource\" \x7b\n")
        ++ (concatAll (res.values.map valueLine) ++ "\x7d\n\n"))
    ∧ (∀ (vals : List (String × String)) (k v : String),
        (setProp vals k v).map Prod.fst
        = if k ∈ vals.map Prod.fst then vals.map Prod.fst
          else vals.map Prod.fst ++ [k])
    ∧ (updateResourceValue (updateResourceValue (handleDragEnd initialState "aws_s3")
         0 "region" "us-east-1") 0 "bucket_name" "my-bucket").terraformCode
      = genPreamble "AWS"
        ++ "resource \"aws_s3\" \"aws_s3_resource\" \x7b\n  region = \"us-east-1\"\n  bucket_name = \"my-bucket\"\n\x7d\n\n" :=
  ⟨fun res => by simp [resourceBlock, String.append_assoc],
   fun vals k v => setProp_keys vals k v, by decide⟩

set_option maxRecDepth 200000 in
/-- Claim C5 counterexample: in the part_000 variant a drop of aws_s3
followed by a category change to Docker leaves the placed resource in the
state, and the next render, triggered by a field edit, still shows one
resource block, so the category change there clears nothing. -/
theorem claimC5_counterexample :
    (Part000.setSelectedCategory (Part000.handleDragEnd Part000.initialState "aws_s3")
      "Docker").droppedResources ≠ []
    ∧ (Part000.updateResourceValue
        (Part000.setSelectedCategory (Part000.handleDragEnd Part000.initialState "aws_s3")
          "Docker") 0 "bucket_name" "b").terraformCode
      = updPreamble "Docker"
        ++ "resource \"aws_s3\" \"aws_s3_resource\" \x7b\n  bucket_name = \"b\"\n\x7d\n\n" :=
  ⟨by decide, by decide⟩

/-- Claim C5 amended: in the Terraform.tsx component a category change
clears all placed resources and the next rendered document is exactly the
preamble with zero resource blocks; the part_000 variant does not clear
its placed resources on a category change. -/
theorem claimC5_amended_category_clear (s : ComponentState) (c : String) :
    (setSelectedCategory s c).droppedResources = []
    ∧ (setSelectedCategory s c).terraformCode = genPreamble c :=
  ⟨rfl, rfl⟩

/-- Claim C6: both renderers are deterministic functions of the category
and the ordered resource sequence: identical inputs in identical order
give byte-identical output. -/
theorem claimC6_deterministic (c1 c2 : String) (rs1 rs2 : List PlacedResource)
    (hc : c1 = c2) (hr : rs1 = rs2) :
    generateTerraformCode c1 rs1 = generateTerraformCode c2 rs2
    ∧ updateTerraformCode c1 rs1 = updateTerraformCode c2 rs2 := by
  subst hc
  subst hr
  exact ⟨rfl, rfl⟩

/-- Claim C6 witness: the determinism theorem applied at a concrete input. -/
theorem claimC6_witness :
    "AWS" = "AWS"
    ∧ (generateTerraformCode "AWS" [] = generateTerraformCode "AWS" []
       ∧ updateTerraformCode "AWS" [] = updateTerraformCode "AWS" []) :=
  ⟨rfl, claimC6_deterministic "AWS" "AWS" [] [] rfl rfl⟩

/-- Claim C7: both renderers are total functions that read only the values
object of a placed resource, so a field missing from values yields no line
whatever the declared field list says, and every present value is embedded
verbatim between the quotes of its line, with no escaping of quote or
newline characters. -/
theorem claimC7_total_verbatim_no_escape (c : String) (id0 nm img : String)
    (fields1 fields2 : List String) (vals : List (String × String))
    (rest : List PlacedResource) :
    generateTerraformCode c (⟨id0, nm, fields1, img, vals⟩ :: rest)
      = generateTerraformCode c (⟨id0, nm, fields2, img, vals⟩ :: rest)
    ∧ updateTerraformCode c (⟨id0, nm, fields1, img, vals⟩ :: rest)
      = updateTerraformCode c (⟨id0, nm, fields2, img, vals⟩ :: rest)
    ∧ (∀ kv : String × String,
        valueLine kv = "  " ++ (kv.1 ++ (" = \"" ++ (kv.2 ++ "\"\n"))))
    ∧ valueLine ("quoted", "a\"b\nc") = "  quoted = \"a\"b\nc\"\n" :=
  ⟨rfl, rfl, fun kv => by simp [valueLine, String.append_assoc], by decide⟩

set_option maxRecDepth 200000 in
/-- Claim C8 counterexample: on a resource whose values were inserted
region first while the catalog declares bucket_name first, both renderer
variants emit the same block with region first, so neither iterates by
catalog declaration order and the only divergence is the provider
instantiation block. -/
theorem claimC8_counterexample :
    generateTerraformCode "AWS"
      [⟨"aws_s3", "AWS S3", ["bucket_name", "region"], "/aws-s3.png",
        [("region", "us-east-1"), ("bucket_name", "my-bucket")]⟩]
      = genPreamble "AWS"
        ++ "resource \"aws_s3\" \"aws_s3_resource\" \x7b\n  region = \"us-east-1\"\n  bucket_name = \"my-bucket\"\n\x7d\n\n"
    ∧ updateTerraformCode "AWS"
      [⟨"aws_s3", "AWS S3", ["bucket_name", "region"], "/aws-s3.png",
        [("region", "us-east-1"), ("bucket_name", "my-bucket")]⟩]
      = updPreamble "AWS"
        ++ "resource \"aws_s3\" \"aws_s3_resource\" \x7b\n  region = \"us-east-1\"\n  bucket_name = \"my-bucket\"\n\x7d\n\n" :=
  ⟨by decide, by decide⟩

/-- Claim C8 amended: the two renderer variants diverge exactly in the
provider instantiation block, which generateTerraformCode emits after the
shared preamble and updateTerraformCode omits, while both render the same
resource blocks with fields in edit (insertion) order. -/
theorem claimC8_amended_provider_only (c : String) (rs : List PlacedResource) :
    generateTerraformCode c rs
      = updPreamble c ++ (providerBlock c ++ concatAll (rs.map resourceBlock))
    ∧ updateTerraformCode c rs = updPreamble c ++ concatAll (rs.map resourceBlock) := by
  constructor
  · rw [generate_eq, preamble_split, String.append_assoc]
  · exact update_eq c rs

/-- Claim C9: a drop whose active id matches no resource of the selected
category's catalog leaves the component state completely unchanged, in
both variants. -/
theorem claimC9_unknown_id_noop (s : ComponentState) (activeId : String)
    (h : findResource s.selectedCategory activeId = none) :
    handleDragEnd s activeId = s ∧ Part000.handleDragEnd s activeId = s := by
  constructor
  · simp [handleDragEnd, h]
  · simp [Part000.handleDragEnd, h]

set_option maxRecDepth 200000 in
/-- Claim C9 witness: the no-op theorem applied to the initial state and
an id absent from the AWS catalog. -/
theorem claimC9_witness :
    findResource initialState.selectedCategory "aws_lambda" = none
    ∧ (handleDragEnd initialState "aws_lambda" = initialState
       ∧ Part000.handleDragEnd initialState "aws_lambda" = initialState) :=
  ⟨by decide, claimC9_unknown_id_noop initialState "aws_lambda" (by decide)⟩

/-- Claim C10: updating field key of the resource at index changes only
that entry of that resource's values: the list keeps its length and order,
every other position is untouched, the indexed resource keeps its id,
name, fields and image and only receives the property assignment on its
values, and the lookup of every other key of those values is unchanged. -/
theorem claimC10_setFieldValue_frame (rs : List PlacedResource) (i : Nat)
    (k v : String) :
    (updateValues rs i k v).length = rs.length
    ∧ (∀ j : Nat, j ≠ i → (updateValues rs i k v)[j]? = rs[j]?)
    ∧ (updateValues rs i k v)[i]?
      = (rs[i]?).map (fun r => ⟨r.id, r.name, r.fields, r.image, setProp r.values k v⟩)
    ∧ (∀ (vals : List (String × String)) (k2 : String), k2 ≠ k →
        (setProp vals k v).find? (fun kv => kv.1 = k2)
        = vals.find? (fun kv => kv.1 = k2)) :=
  ⟨updateValues_length rs i k v,
   fun j hj => updateValues_ne rs i k v j hj,
   updateValues_eq rs i k v,
   fun vals k2 h2 => setProp_find_ne vals k v k2 h2⟩

/-- Claim C10 witness: the frame theorem applied at a concrete
two-resource list, index 0, and a concrete values object. -/
theorem claimC10_witness :
    ((1 : Nat) ≠ 0
     ∧ (updateValues [⟨"a", "A", [], "", [("p", "1")]⟩, ⟨"b", "B", [], "", []⟩]
          0 "p" "2")[1]?
       = [(⟨"a", "A", [], "", [("p", "1")]⟩ : PlacedResource), ⟨"b", "B", [], "", []⟩][1]?)
    ∧ ("q" ≠ "p"
       ∧ (setProp [("p", "1"), ("q", "3")] "p" "2").find? (fun kv => kv.1 = "q")
         = [("p", "1"), ("q", "3")].find? (fun kv => kv.1 = "q")) :=
  ⟨⟨by decide,
    (claimC10_setFieldValue_frame
      [⟨"a", "A", [], "", [("p", "1")]⟩, ⟨"b", "B", [], "", []⟩] 0 "p" "2").2.1
      1 (by decide)⟩,
   ⟨by decide,
    (claimC10_setFieldValue_frame
      [⟨"a", "A", [], "", [("p", "1")]⟩, ⟨"b", "B", [], "", []⟩] 0 "p" "2").2.2.2
      [("p", "1"), ("q", "3")] "q" (by decide)⟩⟩

end TerraformUI
